import Mathlib

/-!
Shallow embedding of the shiftly-backend-ai serverless API (TypeScript) in Lean 4.

The embedding models:
- JavaScript runtime values (`JSValue`) with JS truthiness and `typeof`;
- the error taxonomy of `error-handler.util.ts` (`JSError`, with the four
  `AppError` subclasses and plain `Error` values);
- the environment configuration loader (`environment.config.ts`);
- the CORS middleware (`cors.middleware.ts`);
- the request validation middleware (`validation.middleware.ts`);
- the AI parser service (`ai-parser.service.ts`), with the external model call
  and `JSON.parse` abstracted as explicit functional parameters;
- the top-level request handler (`api/parse.ts`).

Exceptions become `Except JSError`, the mutable `VercelResponse` becomes
explicit state passing of a `JSResponse` record, and the `await`ed external
model round trip becomes a `String → ModelOutcome` oracle argument (the reply
of the model to the prompt it was sent).
-/

/-- A JavaScript runtime value, as far as the API's validation logic can
observe it: strings, numbers, booleans, `null`, `undefined`, arrays and
plain objects (an object is a key/value list; keys are unique in objects
that come from JSON). -/
inductive JSValue where
  | vstr (s : String)
  | vnum (n : Int)
  | vbool (b : Bool)
  | vnull
  | vundef
  | varr (elems : List JSValue)
  | vobj (fields : List (String × JSValue))

namespace JSValue

/-- JavaScript truthiness: `""`, `0`, `false`, `null` and `undefined` are
falsy, everything else (including `[]` and `\x7b\x7d`) is truthy. -/
def truthy : JSValue → Bool
  | vstr s => s ≠ ""
  | vnum n => n ≠ 0
  | vbool b => b
  | vnull => false
  | vundef => false
  | varr _ => true
  | vobj _ => true

/-- The JavaScript `typeof` operator (note `typeof null = "object"` and
`typeof [] = "object"`). -/
def typeofJS : JSValue → String
  | vstr _ => "string"
  | vnum _ => "number"
  | vbool _ => "boolean"
  | vnull => "object"
  | vundef => "undefined"
  | varr _ => "object"
  | vobj _ => "object"

/-- Property access `v[key]` for a named key: yields the field value on an
object, `undefined` otherwise (named properties of arrays, strings, numbers
and booleans are absent here). -/
def getField : JSValue → String → JSValue
  | vobj fields, key =>
      match fields.find? (fun p => p.1 = key) with
      | some p => p.2
      | none => vundef
  | _, _ => vundef

/-- The JavaScript `key in v` test for objects (false on arrays and
primitives, which carry none of the keys this API looks up). -/
def hasField : JSValue → String → Bool
  | vobj fields, key => fields.any (fun p => p.1 = key)
  | _, _ => false

/-- `Object.keys`. -/
def objKeys : JSValue → List String
  | vobj fields => fields.map (fun p => p.1)
  | _ => []

/-- `Array.isArray`. -/
def isArray : JSValue → Bool
  | varr _ => true
  | _ => false

end JSValue

open JSValue

/-- JavaScript `String.prototype.trim()`: strip leading and trailing
whitespace. Defined structurally over the character list (rather than via
`String.trim`) so that it evaluates inside the kernel. -/
def jsTrim (s : String) : String :=
  String.mk
    (((s.toList.dropWhile Char.isWhitespace).reverse.dropWhile
        Char.isWhitespace).reverse)

/-- JSON string escaping for the characters `JSON.stringify` always escapes
in this data (quote, backslash, the common control characters). -/
def quoteJsonChar (c : Char) : String :=
  if c = '"' then "\\\""
  else if c = '\\' then "\\\\"
  else if c = '\n' then "\\n"
  else if c = '\t' then "\\t"
  else if c = '\r' then "\\r"
  else String.singleton c

/-- A JSON string literal for `s`, as `JSON.stringify` renders it. -/
def quoteJson (s : String) : String :=
  "\"" ++ String.join (s.toList.map quoteJsonChar) ++ "\""

mutual
/-- `JSON.stringify`, the serialization `res.json` applies to the response
value. (`undefined` never survives the API's validation, so its special
treatment by `JSON.stringify` is rendered as `null` here.) -/
def jsonStringify : JSValue → String
  | .vstr s => quoteJson s
  | .vnum n => toString n
  | .vbool b => if b then "true" else "false"
  | .vnull => "null"
  | .vundef => "null"
  | .varr xs => "[" ++ stringifyElems xs ++ "]"
  | .vobj fs => "\x7b" ++ stringifyFields fs ++ "\x7d"

/-- Comma-separated serialization of array elements. -/
def stringifyElems : List JSValue → String
  | [] => ""
  | [x] => jsonStringify x
  | x :: y :: xs => jsonStringify x ++ "," ++ stringifyElems (y :: xs)

/-- Comma-separated serialization of object fields. -/
def stringifyFields : List (String × JSValue) → String
  | [] => ""
  | [(k, v)] => quoteJson k ++ ":" ++ jsonStringify v
  | (k, v) :: f :: fs => quoteJson k ++ ":" ++ jsonStringify v ++ "," ++ stringifyFields (f :: fs)
end

/-- The concrete error classes of `error-handler.util.ts` (all of which
extend `AppError`), used to model JavaScript `instanceof` on error values. -/
inductive ErrClass where
  | appBase
  | validation
  | methodNotAllowed
  | configuration
  | aiService
deriving DecidableEq, Repr

/-- A thrown JavaScript error: either an instance of the custom `AppError`
hierarchy (with its class, message, statusCode, isOperational flag and
optional context), or a plain built-in `Error` carrying only a message. -/
inductive JSError where
  | app (cls : ErrClass) (message : String) (statusCode : Nat)
      (isOperational : Bool) (context : Option JSValue)
  | plain (message : String)

namespace JSError

/-- `error instanceof AppError`. -/
def isAppError : JSError → Bool
  | app _ _ _ _ _ => true
  | plain _ => false

/-- `error instanceof ValidationError`. -/
def isValidationError : JSError → Bool
  | app .validation _ _ _ _ => true
  | _ => false

/-- `error instanceof AIServiceError`. -/
def isAIServiceError : JSError → Bool
  | app .aiService _ _ _ _ => true
  | _ => false

/-- `error instanceof ConfigurationError`. -/
def isConfigurationError : JSError → Bool
  | app .configuration _ _ _ _ => true
  | _ => false

/-- `error.message`. -/
def message : JSError → String
  | app _ m _ _ _ => m
  | plain m => m

end JSError

/-- `new ValidationError(message, context)`: an operational 400 error. -/
def ValidationError (message : String) (context : Option JSValue) : JSError :=
  .app .validation message 400 true context

/-- `new MethodNotAllowedError(method)`: an operational 405 error whose
message embeds the offending method and whose context records it. -/
def MethodNotAllowedError (method : String) : JSError :=
  .app .methodNotAllowed
    ("HTTP method " ++ method ++ " is not allowed for this endpoint")
    405 true (some (vobj [("method", vstr method)]))

/-- `new ConfigurationError(message, context)`: a non-operational 500 error. -/
def ConfigurationError (message : String) (context : Option JSValue) : JSError :=
  .app .configuration message 500 false context

/-- `new AIServiceError(message, context)`: an operational 500 error. -/
def AIServiceError (message : String) (context : Option JSValue) : JSError :=
  .app .aiService message 500 true context

/-- The fixed message `buildErrorResponse` uses for errors outside the
`AppError` taxonomy. -/
def genericErrorMessage : String :=
  "An unexpected error occurred while processing your request"

/-- `buildErrorResponse(error)` from `error-handler.util.ts`: an `AppError`
is echoed with its own message and status code, and its context is attached
exactly when the process is not in production mode and a context exists; a
plain error yields the fixed generic message with status 500. The
`production` flag models `process.env.NODE_ENV === "production"`. -/
def buildErrorResponse (production : Bool) (e : JSError) : JSValue :=
  match e with
  | .app _ m sc _ ctx =>
      vobj ([("error", vstr m), ("statusCode", vnum sc)] ++
        (if production = false then
          match ctx with
          | some c => [("context", c)]
          | none => []
        else []))
  | .plain _ =>
      vobj [("error", vstr genericErrorMessage), ("statusCode", vnum 500)]

/-- `logError` writes only to the operational log stream; that side channel
is outside the response model, so `handleError` here is just status +
`buildErrorResponse` body. The process environment, as far as
`environment.config.ts` reads it. -/
structure ProcessEnv where
  GEMINI_API_KEY : Option String
  ALLOWED_ORIGINS : Option String
  AI_MODEL_NAME : Option String

/-- JS emptiness test `!v || v.trim() === ""` on an optional string. -/
def blankOpt : Option String → Bool
  | none => true
  | some s => s = "" || jsTrim s = ""

/-- Default CORS allowed origins from `environment.config.ts`. -/
def DEFAULT_ALLOWED_ORIGINS : List String :=
  ["https://dmaman86.github.io", "http://localhost:5173"]

/-- Default AI model name from `environment.config.ts`. -/
def DEFAULT_MODEL_NAME : String := "gemini-1.5-flash-001"

/-- The message of the error `getApiKey` throws when the key is missing. -/
def apiKeyErrorMessage : String :=
  "GEMINI_API_KEY environment variable is required but not set. " ++
    "Please configure your API key in the environment."

/-- `getApiKey()` from `environment.config.ts`: throws a plain `Error`
(not an `AppError` subclass) when `GEMINI_API_KEY` is unset or blank,
otherwise returns the trimmed key. -/
def getApiKey (env : ProcessEnv) : Except JSError String :=
  match env.GEMINI_API_KEY with
  | none => .error (.plain apiKeyErrorMessage)
  | some apiKey =>
      if apiKey = "" || jsTrim apiKey = "" then .error (.plain apiKeyErrorMessage)
      else .ok (jsTrim apiKey)

/-- `getAllowedOrigins()` from `environment.config.ts`: the comma-separated
list, trimmed and with empty tokens dropped; defaults when unset or blank. -/
def getAllowedOrigins (env : ProcessEnv) : List String :=
  match env.ALLOWED_ORIGINS with
  | none => DEFAULT_ALLOWED_ORIGINS
  | some originsEnv =>
      if originsEnv = "" || jsTrim originsEnv = "" then DEFAULT_ALLOWED_ORIGINS
      else ((originsEnv.splitOn ",").map (fun origin => jsTrim origin)).filter
        (fun origin => origin.length > 0)

/-- `getModelName()` from `environment.config.ts`. -/
def getModelName (env : ProcessEnv) : String :=
  match env.AI_MODEL_NAME with
  | none => DEFAULT_MODEL_NAME
  | some modelName =>
      if modelName = "" || jsTrim modelName = "" then DEFAULT_MODEL_NAME
      else jsTrim modelName

/-- The `AppConfig` record of `environment.config.ts`. -/
structure AppConfig where
  GEMINI_API_KEY : String
  ALLOWED_ORIGINS : List String
  AI_MODEL_NAME : String

/-- `buildConfig()` from `environment.config.ts`, run once at module load:
propagates the plain `Error` from `getApiKey` when the secret is absent. -/
def buildConfig (env : ProcessEnv) : Except JSError AppConfig :=
  match getApiKey env with
  | .error e => .error e
  | .ok key =>
      .ok ⟨key, getAllowedOrigins env, getModelName env⟩

/-- The inbound request, as far as the handler observes it. -/
structure JSRequest where
  method : Option String
  originHeader : Option String
  contentTypeHeader : Option String
  body : JSValue

/-- The response object: status code, headers (latest setting first) and
the serialized body once one has been written. -/
structure JSResponse where
  status : Nat
  headers : List (String × String)
  body : Option String

/-- `res.setHeader(name, value)`; prepending together with first-match
lookup models overwriting. -/
def setHeader (res : JSResponse) (name value : String) : JSResponse :=
  { res with headers := (name, value) :: res.headers }

/-- The current value of a response header. -/
def getHeader (res : JSResponse) (name : String) : Option String :=
  (res.headers.find? (fun p => p.1 = name)).map (fun p => p.2)

/-- `ALLOWED_METHODS` from `cors.middleware.ts`. -/
def ALLOWED_METHODS : String := "GET,OPTIONS,PATCH,DELETE,POST,PUT"

/-- `ALLOWED_HEADERS` from `cors.middleware.ts` (already joined). -/
def ALLOWED_HEADERS : String :=
  String.intercalate ", "
    ["X-CSRF-Token", "X-Requested-With", "Accept", "Accept-Version",
     "Content-Length", "Content-MD5", "Content-Type", "Date", "X-Api-Version"]

/-- `validateOrigin(origin, allowedOrigins)` from `cors.middleware.ts`:
`"null"` when the origin is absent or empty (JS falsy) or not an exact
member of the allow-list, the origin itself otherwise. -/
def validateOrigin (origin : Option String) (allowedOrigins : List String) : String :=
  match origin with
  | none => "null"
  | some o =>
      if o = "" then "null"
      else if allowedOrigins.contains o then o
      else "null"

/-- `setCORSHeaders(res, origin)` from `cors.middleware.ts`. -/
def setCORSHeaders (res : JSResponse) (origin : String) : JSResponse :=
  let res := setHeader res "Access-Control-Allow-Origin" origin
  let res := setHeader res "Access-Control-Allow-Credentials" "true"
  let res := setHeader res "Access-Control-Allow-Methods" ALLOWED_METHODS
  setHeader res "Access-Control-Allow-Headers" ALLOWED_HEADERS

/-- `corsMiddleware(req, res, config)` from `cors.middleware.ts`: sets the
CORS headers, answers an OPTIONS preflight with 200 and an empty body and
signals termination; otherwise signals that processing continues. -/
def corsMiddleware (req : JSRequest) (res : JSResponse)
    (allowedOrigins : List String) : JSResponse × Bool :=
  let validatedOrigin := validateOrigin req.originHeader allowedOrigins
  let res := setCORSHeaders res validatedOrigin
  if req.method = some "OPTIONS" then
    ({ res with status := 200, body := some "" }, true)
  else
    (res, false)

/-- The status-code determination in `handleError`:
`error instanceof AppError ? error.statusCode : 500`. -/
def errStatus : JSError → Nat
  | .app _ _ sc _ _ => sc
  | .plain _ => 500

/-- `handleError(error, res)` from `error-handler.util.ts`: status is the
error's own statusCode for `AppError` instances and 500 otherwise; the body
is the serialized `buildErrorResponse`. (`logError` only writes to the log
stream, which is outside the response model.) -/
def handleError (production : Bool) (e : JSError) (res : JSResponse) : JSResponse :=
  { res with
      status := errStatus e,
      body := some (jsonStringify (buildErrorResponse production e)) }

/-- `validateMethod(req)` from `validation.middleware.ts`. -/
def validateMethod (req : JSRequest) : Except JSError Unit :=
  if req.method ≠ some "POST" then
    .error (MethodNotAllowedError ((req.method.filter (fun m => m ≠ "")).getD "UNKNOWN"))
  else .ok ()

/-- The optional content-type header as the JS value placed in an error
context (`undefined` when the header is absent). -/
def optHeaderVal : Option String → JSValue
  | none => vundef
  | some s => vstr s

/-- `validateBody(req)` from `validation.middleware.ts`. -/
def validateBody (req : JSRequest) : Except JSError Unit :=
  if !req.body.truthy then
    .error (ValidationError "Request body is required"
      (some (vobj [("contentType", optHeaderVal req.contentTypeHeader)])))
  else if req.body.typeofJS ≠ "object" then
    .error (ValidationError "Request body must be a JSON object"
      (some (vobj [("bodyType", vstr req.body.typeofJS)])))
  else .ok ()

/-- `validateRequiredFields(body)` from `validation.middleware.ts`: the
`!text` truthiness test, then the `typeof` test, then the trimmed-emptiness
test, each raising its own `ValidationError`. -/
def validateRequiredFields (body : JSValue) : Except JSError Unit :=
  let text := body.getField "text"
  if !text.truthy then
    .error (ValidationError "Field 'text' is required"
      (some (vobj [("providedFields", varr ((body.objKeys).map vstr)),
                   ("missingField", vstr "text")])))
  else if text.typeofJS ≠ "string" then
    .error (ValidationError "Field 'text' must be a string"
      (some (vobj [("field", vstr "text"),
                   ("providedType", vstr text.typeofJS),
                   ("expectedType", vstr "string")])))
  else
    match text with
    | .vstr s =>
        if jsTrim s = "" then
          .error (ValidationError "Field 'text' cannot be empty"
            (some (vobj [("field", vstr "text"), ("length", vnum s.length)])))
        else .ok ()
    | _ => .ok ()

/-- `isParseRequest(obj)` from `validation.middleware.ts`. -/
def isParseRequest (obj : JSValue) : Bool :=
  if !obj.truthy || obj.typeofJS ≠ "object" then false
  else
    obj.hasField "text" &&
    (match obj.getField "text" with
     | .vstr s => (jsTrim s).length > 0
     | _ => false)

/-- `validateRequest(req)` from `validation.middleware.ts`: method, body
structure, required fields, then the `isParseRequest` type-guard; returns
the (typed) body. -/
def validateRequest (req : JSRequest) : Except JSError JSValue := do
  validateMethod req
  validateBody req
  validateRequiredFields req.body
  if !isParseRequest req.body then
    .error (ValidationError "Request body does not match expected structure"
      (some (vobj [("body", req.body)])))
  return req.body

/-- `validateTextField(req)` from `validation.middleware.ts`: the lighter
entry point. Reading `body.text` when the body is `null`/`undefined` is a
runtime `TypeError` in JavaScript, modelled as a plain error. Note the
contexts: no context at all on the "required" and "cannot be empty" errors,
and only `providedType` on the type error. -/
def validateTextField (req : JSRequest) : Except JSError JSValue :=
  match req.body with
  | .vnull | .vundef =>
      .error (.plain "TypeError: Cannot read properties of null or undefined (reading 'text')")
  | body =>
      let text := body.getField "text"
      if !text.truthy then
        .error (ValidationError "Field 'text' is required" none)
      else if text.typeofJS ≠ "string" then
        .error (ValidationError "Field 'text' must be a string"
          (some (vobj [("providedType", vstr text.typeofJS)])))
      else
        match text with
        | .vstr s =>
            if jsTrim s = "" then
              .error (ValidationError "Field 'text' cannot be empty" none)
            else .ok (vstr s)
        | _ => .ok text

/-- The outcome of the single awaited external round trip
`model.generateContent(prompt)`: either the model's raw response text, or a
thrown (plain) error from the SDK/network carrying a message. -/
inductive ModelOutcome where
  | success (responseText : String)
  | failure (errMessage : String)

/-- `buildPrompt(text)` from `ai-parser.service.ts`, with the ambient
`new Date().getFullYear()` made an explicit argument. -/
def buildPrompt (currentYear : Nat) (text : String) : String :=
  jsTrim ("\nAnalyze the provided text and extract work shifts.\n\n" ++
   "Current Context: Year " ++ toString currentYear ++
   " (use this year if the year is missing in the date).\n\n" ++
   "Instructions:\n" ++
   "- Extract all shift information including dates, start times, and end times\n" ++
   "- Normalize dates to YYYY-MM-DD format\n" ++
   "- Normalize times to HH:mm format (24-hour)\n" ++
   "- If year is missing, use " ++ toString currentYear ++ "\n" ++
   "- Return data strictly as a JSON array matching the schema\n\n" ++
   "Input text: \"" ++ text ++ "\"\n    ")

/-- The three required fields of the shift schema, in validation order. -/
def requiredShiftFields : List String := ["date", "startTime", "endTime"]

/-- One iteration of the field loop in `validateShifts`: the
`!shift[field] || typeof shift[field] !== "string"` test. -/
def validateShiftField (i : Nat) (shift : JSValue) (field : String) :
    Except JSError Unit :=
  let v := shift.getField field
  if !v.truthy || v.typeofJS ≠ "string" then
    .error (AIServiceError
      ("Invalid shift at index " ++ toString i ++
        ": missing or invalid field '" ++ field ++ "'")
      (some (vobj [("shiftIndex", vnum i), ("field", vstr field),
                   ("provided", v), ("type", vstr v.typeofJS)])))
  else .ok ()

/-- The inner `for (const field of requiredFields)` loop of
`validateShifts`, throwing at the first bad field. -/
def validateShiftFieldsLoop (i : Nat) (shift : JSValue) :
    List String → Except JSError Unit
  | [] => .ok ()
  | field :: rest => do
      validateShiftField i shift field
      validateShiftFieldsLoop i shift rest

/-- The body of the outer loop in `validateShifts` for element `i`: the
object test, then the three field tests in order. -/
def validateShiftElem (i : Nat) (shift : JSValue) : Except JSError Unit :=
  if !shift.truthy || shift.typeofJS ≠ "object" then
    .error (AIServiceError
      ("Invalid shift at index " ++ toString i ++ ": not an object")
      (some (vobj [("shiftIndex", vnum i), ("shiftType", vstr shift.typeofJS)])))
  else validateShiftFieldsLoop i shift requiredShiftFields

/-- The indexed loop of `validateShifts(shifts)`, starting at index `i`. -/
def validateShiftsFrom (i : Nat) : List JSValue → Except JSError Unit
  | [] => .ok ()
  | shift :: rest => do
      validateShiftElem i shift
      validateShiftsFrom (i + 1) rest

/-- `validateShifts(shifts)` from `ai-parser.service.ts`: stops at the first
violating element/field and raises the corresponding `AIServiceError`. -/
def validateShifts (shifts : List JSValue) : Except JSError Unit :=
  validateShiftsFrom 0 shifts

/-- The `AIParserService` constructor checks (`createAIParserService`
instantiates the class with the given key and model name). -/
def createAIParserService (apiKey modelName : String) : Except JSError Unit :=
  if apiKey = "" || jsTrim apiKey = "" then
    .error (ConfigurationError "Invalid API key provided to AIParserService"
      (some (vobj [("provided", vbool (apiKey ≠ ""))])))
  else if modelName = "" || jsTrim modelName = "" then
    .error (ConfigurationError "Invalid model name provided to AIParserService"
      (some (vobj [("provided", vbool (modelName ≠ ""))])))
  else .ok ()

/-- `parseShifts(text)` from `ai-parser.service.ts`.

Parameters standing for the ambient runtime: `parseJson` is `JSON.parse`
(returning the thrown parse error's message on failure), `modelReply` is the
external model's behavior on the prompt it is sent, `currentYear` feeds
`buildPrompt`. `text` is `Option String` because JavaScript callers may pass
`undefined` (the code guards with `text?.length`).

Returns the result together with a flag recording whether the external
model was invoked. -/
def parseShifts (modelName : String)
    (parseJson : String → Except String JSValue)
    (modelReply : String → ModelOutcome)
    (currentYear : Nat) (text : Option String) :
    Except JSError JSValue × Bool :=
  if (match text with | none => true | some s => s = "" || jsTrim s = "") then
    (.error (AIServiceError "Cannot parse empty text"
      (some (vobj [("inputLength",
        vnum (match text with | none => 0 | some s => (s.length : Int)))]))), false)
  else
    let prompt := buildPrompt currentYear ((text.getD ""))
    match modelReply prompt with
    | .failure errMessage =>
        (.error (AIServiceError "Failed to generate shifts from AI service"
          (some (vobj [("modelName", vstr modelName),
                       ("originalError", vstr errMessage)]))), true)
    | .success responseText =>
        if responseText = "" || jsTrim responseText = "" then
          (.error (AIServiceError "AI model returned empty response"
            (some (vobj [("modelName", vstr modelName)]))), true)
        else
          match parseJson responseText with
          | .error parseErr =>
              (.error (AIServiceError "Failed to parse AI response as JSON"
                (some (vobj [("modelName", vstr modelName),
                             ("responsePreview", vstr (responseText.take 200)),
                             ("parseError", vstr parseErr)]))), true)
          | .ok parsedShifts =>
              if !parsedShifts.isArray then
                (.error (AIServiceError "AI response is not an array"
                  (some (vobj [("modelName", vstr modelName),
                               ("responseType", vstr parsedShifts.typeofJS)]))), true)
              else
                match parsedShifts with
                | .varr elems =>
                    (match validateShifts elems with
                     | .error e => (.error e, true)
                     | .ok _ => (.ok (varr elems), true))
                | _ => (.ok parsedShifts, true)

/-- Extraction of a string out of a `JSValue` the type system has already
certified as a string (the `const \x7b text \x7d = validateRequest(req)`
destructuring; the default is unreachable on validated bodies). -/
def jsAsString : JSValue → String
  | .vstr s => s
  | _ => ""

/-- The observable outcome of one handler invocation: the final response,
plus whether the request validator, the parsing orchestrator
(`parseShifts`) and the external model were reached. -/
structure HandlerResult where
  res : JSResponse
  validatorInvoked : Bool
  parserInvoked : Bool
  modelInvoked : Bool

/-- The default `handler(req, res)` of `api/parse.ts`: CORS (possibly
terminating), then inside one try/catch the validator, the service
construction, `parseShifts`, and the 200 JSON response; any thrown error is
consumed once by `handleError`. -/
def handler (production : Bool) (cfg : AppConfig)
    (parseJson : String → Except String JSValue)
    (modelReply : String → ModelOutcome)
    (currentYear : Nat)
    (req : JSRequest) (res : JSResponse) : HandlerResult :=
  let corsResult := corsMiddleware req res cfg.ALLOWED_ORIGINS
  if corsResult.2 then
    ⟨corsResult.1, false, false, false⟩
  else
    let res := corsResult.1
    match validateRequest req with
    | .error e => ⟨handleError production e res, true, false, false⟩
    | .ok body =>
        let text := jsAsString (body.getField "text")
        match createAIParserService cfg.GEMINI_API_KEY cfg.AI_MODEL_NAME with
        | .error e => ⟨handleError production e res, true, false, false⟩
        | .ok _ =>
            match parseShifts cfg.AI_MODEL_NAME parseJson modelReply currentYear
                (some text) with
            | (.error e, mInv) => ⟨handleError production e res, true, true, mInv⟩
            | (.ok shifts, mInv) =>
                ⟨{ res with status := 200, body := some (jsonStringify shifts) },
                  true, true, mInv⟩

/-- Concrete fixtures used by the witness theorems: a parsed model answer
with one complete shift. -/
def sampleShiftsJson : JSValue :=
  varr [vobj [("date", vstr "2026-01-12"), ("startTime", vstr "09:00"),
              ("endTime", vstr "17:00")]]

/-- A `JSON.parse` fixture that parses every text to `sampleShiftsJson`. -/
def samplePj : String → Except String JSValue := fun _ => .ok sampleShiftsJson

/-- A model fixture that always answers with the fixed raw text. -/
def sampleMr : String → ModelOutcome := fun _ => ModelOutcome.success "[raw model json]"

/-- A configuration fixture. -/
def sampleCfg : AppConfig := ⟨"key", ["http://localhost:5173"], "gemini-1.5-flash-001"⟩

/-- A valid POST request fixture with the given origin header. -/
def sampleReq (origin : Option String) : JSRequest :=
  ⟨some "POST", origin, none, vobj [("text", vstr "I work Monday 9am to 5pm")]⟩

/-- A fresh response object. -/
def emptyRes : JSResponse := ⟨0, [], none⟩

/-! ## Helper lemmas -/

/-- Every member of the configured allow-list is a non-empty string: the
defaults are non-empty and the environment-derived list filters out empty
tokens. -/
theorem mem_getAllowedOrigins_ne_empty (env : ProcessEnv) (o : String)
    (h : o ∈ getAllowedOrigins env) : o ≠ "" := by
  intro he
  subst he
  unfold getAllowedOrigins at h
  cases henv : env.ALLOWED_ORIGINS with
  | none =>
      rw [henv] at h
      simp [DEFAULT_ALLOWED_ORIGINS] at h
  | some originsEnv =>
      rw [henv] at h
      split at h
      · simp [DEFAULT_ALLOWED_ORIGINS] at h
      · split at h
        · simp [DEFAULT_ALLOWED_ORIGINS] at h
        · rw [List.mem_filter] at h
          simp at h

/-! ## C1 -/

/-- C1: the Access-Control-Allow-Origin header set by the CORS gate equals
the request's origin exactly when that origin is an exact case-sensitive
member of the configured allow-list, and equals the literal string "null"
when the origin header is absent or not a member. -/
theorem c1_cors_allow_origin (env : ProcessEnv) (req : JSRequest) (res : JSResponse) :
    getHeader (corsMiddleware req res (getAllowedOrigins env)).1
        "Access-Control-Allow-Origin" =
      some (match req.originHeader with
            | none => "null"
            | some o => if o ∈ getAllowedOrigins env then o else "null") := by
  have hval : validateOrigin req.originHeader (getAllowedOrigins env) =
      (match req.originHeader with
       | none => "null"
       | some o => if o ∈ getAllowedOrigins env then o else "null") := by
    cases ho : req.originHeader with
    | none => simp [validateOrigin]
    | some o =>
        by_cases he : o = ""
        · subst he
          have hne : ("" : String) ∉ getAllowedOrigins env := fun hmem =>
            (mem_getAllowedOrigins_ne_empty env "" hmem) rfl
          simp [validateOrigin, hne]
        · simp [validateOrigin, he, List.elem_iff]
  unfold corsMiddleware
  by_cases hm : req.method = some "OPTIONS" <;>
    simp [hm, setCORSHeaders, setHeader, getHeader, hval]

/-! ## C2 -/

/-- C2 counterexample: the body `\x7b "text": "" \x7d` *has* a `text` key (and its
value is a string that is empty after trimming), yet `validateRequiredFields`
raises the "Field 'text' is required" ValidationError, not the "cannot be
empty" one — refuting "raised exactly when the body lacks a `text` key" and
the claimed handling of present-but-empty strings. -/
theorem c2_counterexample :
    (vobj [("text", vstr "")]).hasField "text" = true ∧
    (vobj [("text", vstr "")]).getField "text" = vstr "" ∧
    validateRequiredFields (vobj [("text", vstr "")]) =
      .error (ValidationError "Field 'text' is required"
        (some (vobj [("providedFields", varr [vstr "text"]),
                     ("missingField", vstr "text")]))) :=
  ⟨rfl, rfl, rfl⟩

/-- C2 amended: the "required" ValidationError (context listing the provided
keys) is raised exactly when the `text` property of the body is JS-falsy —
absent, or present with a falsy value such as `""`, `0`, `false` or `null`;
the "cannot be empty" ValidationError (context carrying the pre-trim length)
is raised, for a string-valued `text`, exactly when the string is non-empty
but trims to the empty string. -/
theorem c2_amended (fields : List (String × JSValue)) :
    (validateRequiredFields (vobj fields) =
        .error (ValidationError "Field 'text' is required"
          (some (vobj [("providedFields", varr (((vobj fields).objKeys).map vstr)),
                       ("missingField", vstr "text")])))
      ↔ ((vobj fields).getField "text").truthy = false) ∧
    (∀ s, (vobj fields).getField "text" = vstr s →
      (validateRequiredFields (vobj fields) =
          .error (ValidationError "Field 'text' cannot be empty"
            (some (vobj [("field", vstr "text"), ("length", vnum (s.length : Int))])))
        ↔ (s ≠ "" ∧ jsTrim s = ""))) := by
  cases hx : (vobj fields).getField "text" with
  | vstr s =>
      by_cases hse : s = ""
      · subst hse
        constructor
        · simp [validateRequiredFields, hx, truthy, ValidationError]
        · intro s' hs'
          injection hs' with hs'
          subst hs'
          simp [validateRequiredFields, hx, truthy, ValidationError]
      · by_cases htr : jsTrim s = ""
        · constructor
          · simp [validateRequiredFields, hx, truthy, typeofJS, hse, htr,
              ValidationError]
          · intro s' hs'
            injection hs' with hs'
            subst hs'
            simp [validateRequiredFields, hx, truthy, typeofJS, hse, htr,
              ValidationError]
        · constructor
          · simp [validateRequiredFields, hx, truthy, typeofJS, hse, htr,
              ValidationError]
          · intro s' hs'
            injection hs' with hs'
            subst hs'
            simp [validateRequiredFields, hx, truthy, typeofJS, hse, htr,
              ValidationError]
  | vnum n =>
      constructor
      · by_cases hn : n = 0 <;>
          simp [validateRequiredFields, hx, truthy, typeofJS, hn, ValidationError]
      · intro s hs
        exact absurd hs (by simp)
  | vbool b =>
      constructor
      · cases b <;>
          simp [validateRequiredFields, hx, truthy, typeofJS, ValidationError]
      · intro s hs
        exact absurd hs (by simp)
  | vnull =>
      constructor
      · simp [validateRequiredFields, hx, truthy, typeofJS, ValidationError]
      · intro s hs
        exact absurd hs (by simp)
  | vundef =>
      constructor
      · simp [validateRequiredFields, hx, truthy, typeofJS, ValidationError]
      · intro s hs
        exact absurd hs (by simp)
  | varr elems =>
      constructor
      · simp [validateRequiredFields, hx, truthy, typeofJS, ValidationError]
      · intro s hs
        exact absurd hs (by simp)
  | vobj fs =>
      constructor
      · simp [validateRequiredFields, hx, truthy, typeofJS, ValidationError]
      · intro s hs
        exact absurd hs (by simp)

/-- C2 amended, witnessed at the concrete bodies `\x7b "text": "   " \x7d` (three
spaces: the "cannot be empty" error fires, carrying pre-trim length 3) and
`\x7b\x7d` (no `text` key: the "required" error fires). -/
theorem c2_amended_witness :
    (validateRequiredFields (vobj [("text", vstr "   ")]) =
        .error (ValidationError "Field 'text' cannot be empty"
          (some (vobj [("field", vstr "text"), ("length", vnum 3)])))) ∧
    (validateRequiredFields (vobj []) =
        .error (ValidationError "Field 'text' is required"
          (some (vobj [("providedFields", varr []), ("missingField", vstr "text")])))) :=
  ⟨((c2_amended [("text", vstr "   ")]).2 "   " rfl).mpr (by decide),
   (c2_amended []).1.mpr (by decide)⟩

/-! ## C3 -/

/-- A single field check succeeds exactly when the field holds a non-empty
string (JS-truthy and of string type). -/
theorem validateShiftField_ok_iff (i : Nat) (shift : JSValue) (f : String) :
    validateShiftField i shift f = .ok () ↔
      ∃ str, shift.getField f = vstr str ∧ str ≠ "" := by
  unfold validateShiftField
  cases hv : shift.getField f with
  | vstr s =>
      by_cases hse : s = "" <;> simp [truthy, typeofJS, hse]
  | vnum n => by_cases hn : n = 0 <;> simp [truthy, typeofJS, hn]
  | vbool b => cases b <;> simp [truthy, typeofJS]
  | vnull => simp [truthy, typeofJS]
  | vundef => simp [truthy, typeofJS]
  | varr elems => simp [truthy, typeofJS]
  | vobj fs => simp [truthy, typeofJS]

/-- The field loop succeeds exactly when every listed field holds a
non-empty string. -/
theorem validateShiftFieldsLoop_ok_iff (i : Nat) (shift : JSValue) (fs : List String) :
    validateShiftFieldsLoop i shift fs = .ok () ↔
      ∀ f ∈ fs, ∃ str, shift.getField f = vstr str ∧ str ≠ "" := by
  induction fs with
  | nil => simp [validateShiftFieldsLoop]
  | cons f rest ih =>
      unfold validateShiftFieldsLoop
      cases hf : validateShiftField i shift f with
      | error e =>
          constructor
          · intro h; exact Except.noConfusion h
          · intro hall
            have hok := (validateShiftField_ok_iff i shift f).mpr (hall f (by simp))
            rw [hf] at hok
            exact Except.noConfusion hok
      | ok u =>
          cases u
          constructor
          · intro h f' hf'
            rcases List.mem_cons.mp hf' with rfl | hm
            · exact (validateShiftField_ok_iff i shift f').mp hf
            · exact ih.mp h f' hm
          · intro hall
            show validateShiftFieldsLoop i shift rest = .ok ()
            exact ih.mpr (fun f' hm => hall f' (List.mem_cons_of_mem _ hm))

/-- The per-element check succeeds exactly when the element is a truthy
object-typed value whose three required fields are non-empty strings. -/
theorem validateShiftElem_ok_iff (i : Nat) (shift : JSValue) :
    validateShiftElem i shift = .ok () ↔
      ((shift.truthy = true ∧ shift.typeofJS = "object") ∧
        ∀ f ∈ requiredShiftFields, ∃ str, shift.getField f = vstr str ∧ str ≠ "") := by
  unfold validateShiftElem
  by_cases hobj : (!shift.truthy || shift.typeofJS ≠ "object") = true
  · rw [if_pos hobj]
    constructor
    · intro h; exact Except.noConfusion h
    · rintro ⟨⟨ht, hty⟩, _⟩
      rw [Bool.or_eq_true] at hobj
      rcases hobj with hh | hh
      · rw [Bool.not_eq_true'] at hh
        rw [ht] at hh
        exact Bool.noConfusion hh
      · rw [decide_eq_true_eq] at hh
        exact (hh hty).elim
  · rw [if_neg hobj]
    have ht : shift.truthy = true := by
      cases hb : shift.truthy with
      | false => exact absurd (by rw [hb]; rfl) hobj
      | true => rfl
    have hty : shift.typeofJS = "object" := by
      by_contra hne
      exact hobj (by simp [hne])
    rw [validateShiftFieldsLoop_ok_iff]
    simp [ht, hty]

/-- The element check does not depend on the index for success. -/
theorem validateShiftElem_ok_index (i j : Nat) (shift : JSValue)
    (h : validateShiftElem i shift = .ok ()) :
    validateShiftElem j shift = .ok () :=
  (validateShiftElem_ok_iff j shift).mpr ((validateShiftElem_ok_iff i shift).mp h)

/-- The indexed loop succeeds exactly when every element passes the
(index-independent) element check. -/
theorem validateShiftsFrom_ok_iff (k : Nat) (shifts : List JSValue) :
    validateShiftsFrom k shifts = .ok () ↔
      ∀ s ∈ shifts, validateShiftElem 0 s = .ok () := by
  induction shifts generalizing k with
  | nil => simp [validateShiftsFrom]
  | cons s rest ih =>
      unfold validateShiftsFrom
      cases hs : validateShiftElem k s with
      | error e =>
          constructor
          · intro h; exact Except.noConfusion h
          · intro h
            have h0 := validateShiftElem_ok_index 0 k s (h s (by simp))
            rw [hs] at h0
            exact Except.noConfusion h0
      | ok u =>
          cases u
          constructor
          · intro h s' hs'
            rcases List.mem_cons.mp hs' with rfl | hmem
            · exact validateShiftElem_ok_index k 0 s' hs
            · exact (ih (k + 1)).mp h s' hmem
          · intro h
            show validateShiftsFrom (k + 1) rest = .ok ()
            exact (ih (k + 1)).mpr (fun s' hm => h s' (List.mem_cons_of_mem _ hm))

/-- The loop reports the first violation: if the elements before index `i`
all pass and element `i` fails with error `e`, the whole validation returns
`e` (with indices in the loop shifted by the starting offset `k`). -/
theorem validateShiftsFrom_first_error (shifts : List JSValue) :
    ∀ (k i : Nat) (h : i < shifts.length) (e : JSError),
      (∀ j (hj : j < i), validateShiftElem (k + j)
        (shifts.get ⟨j, Nat.lt_trans hj h⟩) = .ok ()) →
      validateShiftElem (k + i) (shifts.get ⟨i, h⟩) = .error e →
      validateShiftsFrom k shifts = .error e := by
  induction shifts with
  | nil => intro k i h; simp at h
  | cons s rest ih =>
      intro k i h e hprev herr
      cases i with
      | zero =>
          have herr0 : validateShiftElem k s = .error e := by
            simpa using herr
          unfold validateShiftsFrom
          rw [herr0]
          rfl
      | succ j =>
          have h0 : validateShiftElem k s = .ok () := by
            have := hprev 0 (Nat.succ_pos j)
            simpa using this
          unfold validateShiftsFrom
          rw [h0]
          have hlen : j < rest.length := Nat.lt_of_succ_lt_succ h
          have hrec : validateShiftsFrom (k + 1) rest = .error e := by
            refine ih (k + 1) j hlen e ?_ ?_
            · intro j' hj'
              have hp := hprev (j' + 1) (Nat.succ_lt_succ hj')
              have harith : k + (j' + 1) = k + 1 + j' := by omega
              rw [harith] at hp
              simpa using hp
            · have harith : k + (j + 1) = k + 1 + j := by omega
              rw [harith] at herr
              simpa using herr
          exact hrec

/-- C3 counterexample: the element at index 0 is an object and all three
required fields are present with string values, yet local validation fails
(on the empty-string `date`) — refuting "succeeds exactly when the element
is an object and each of the three fields is present and of string type"
and "elements whose three fields are all present strings never cause a
validation failure". -/
theorem c3_counterexample :
    ((vobj [("date", vstr ""), ("startTime", vstr "09:00"),
        ("endTime", vstr "17:00")]).truthy = true) ∧
    ((vobj [("date", vstr ""), ("startTime", vstr "09:00"),
        ("endTime", vstr "17:00")]).typeofJS = "object") ∧
    (requiredShiftFields.all (fun f =>
        (vobj [("date", vstr ""), ("startTime", vstr "09:00"),
          ("endTime", vstr "17:00")]).hasField f &&
        ((vobj [("date", vstr ""), ("startTime", vstr "09:00"),
          ("endTime", vstr "17:00")]).getField f).typeofJS == "string") = true) ∧
    validateShifts [vobj [("date", vstr ""), ("startTime", vstr "09:00"),
        ("endTime", vstr "17:00")]] =
      .error (AIServiceError "Invalid shift at index 0: missing or invalid field 'date'"
        (some (vobj [("shiftIndex", vnum 0), ("field", vstr "date"),
                     ("provided", vstr ""), ("type", vstr "string")]))) :=
  ⟨rfl, rfl, rfl, rfl⟩

/-- C3 amended: structural validation of the model's array succeeds exactly
when every element is a truthy object-typed value each of whose three
required fields is present with a *non-empty* string value (the `!shift[field]`
test also rejects present empty strings); the first violating element/field
in order determines the AIServiceError that is raised, which identifies the
offending index and field. -/
theorem c3_amended (shifts : List JSValue) :
    (validateShifts shifts = .ok () ↔
      ∀ s ∈ shifts, (s.truthy = true ∧ s.typeofJS = "object") ∧
        ∀ f ∈ requiredShiftFields, ∃ str, s.getField f = vstr str ∧ str ≠ "") ∧
    (∀ i (h : i < shifts.length) (e : JSError),
      (∀ j (hj : j < i), validateShiftElem j
        (shifts.get ⟨j, Nat.lt_trans hj h⟩) = .ok ()) →
      validateShiftElem i (shifts.get ⟨i, h⟩) = .error e →
      validateShifts shifts = .error e) := by
  constructor
  · unfold validateShifts
    rw [validateShiftsFrom_ok_iff]
    constructor
    · intro hall s hs
      exact (validateShiftElem_ok_iff 0 s).mp (hall s hs)
    · intro hall s hs
      exact (validateShiftElem_ok_iff 0 s).mpr (hall s hs)
  · intro i h e hprev herr
    refine validateShiftsFrom_first_error shifts 0 i h e ?_ ?_
    · intro j hj
      simpa using hprev j hj
    · simpa using herr

/-- C3 amended, witnessed: a list whose three fields are non-empty strings
validates, and a non-object element at index 0 yields exactly the
"not an object" AIServiceError for index 0. -/
theorem c3_amended_witness :
    (validateShifts [vobj [("date", vstr "2026-01-12"), ("startTime", vstr "09:00"),
        ("endTime", vstr "17:00")]] = .ok ()) ∧
    (validateShifts [vnum 3] =
      .error (AIServiceError "Invalid shift at index 0: not an object"
        (some (vobj [("shiftIndex", vnum 0), ("shiftType", vstr "number")])))) :=
  ⟨(c3_amended [vobj [("date", vstr "2026-01-12"), ("startTime", vstr "09:00"),
        ("endTime", vstr "17:00")]]).1.mpr
      (by
        intro s hs
        rw [List.mem_singleton] at hs
        subst hs
        refine ⟨⟨rfl, rfl⟩, ?_⟩
        intro f hf
        simp only [requiredShiftFields, List.mem_cons, List.mem_singleton] at hf
        rcases hf with rfl | rfl | rfl | hf
        · exact ⟨"2026-01-12", rfl, by decide⟩
        · exact ⟨"09:00", rfl, by decide⟩
        · exact ⟨"17:00", rfl, by decide⟩
        · exact absurd hf (List.not_mem_nil f)),
   (c3_amended [vnum 3]).2 0 (by decide) _
      (fun j hj => absurd hj (Nat.not_lt_zero j)) rfl⟩

/-! ## C4 -/

/-- C4 counterexample: a non-operational ConfigurationError is a recognized
`AppError`, so `buildErrorResponse` echoes its *own* message in the `error`
field — in production mode and outside it — and that message is not the
generic fixed message. This refutes "non-operational (ConfigurationError)
errors get a generic message that does not equal the error's own message". -/
theorem c4_counterexample :
    getField (buildErrorResponse true
        (ConfigurationError "Invalid API key provided to AIParserService" none))
      "error" = vstr "Invalid API key provided to AIParserService" ∧
    getField (buildErrorResponse false
        (ConfigurationError "Invalid API key provided to AIParserService" none))
      "error" = vstr "Invalid API key provided to AIParserService" ∧
    JSError.isAppError
      (ConfigurationError "Invalid API key provided to AIParserService" none) = true ∧
    "Invalid API key provided to AIParserService" ≠ genericErrorMessage :=
  ⟨rfl, rfl, rfl, by decide⟩

/-- C4 amended: only errors *outside* the AppError taxonomy receive the
generic fixed message (with status 500), regardless of deployment mode;
every recognized taxonomy error — including the non-operational
ConfigurationError — has its own message echoed in the `error` field. -/
theorem c4_amended (production : Bool) :
    (∀ msg, getField (buildErrorResponse production (.plain msg)) "error" =
        vstr genericErrorMessage ∧
      getField (buildErrorResponse production (.plain msg)) "statusCode" = vnum 500) ∧
    (∀ cls m sc op ctx,
      getField (buildErrorResponse production (.app cls m sc op ctx)) "error" =
        vstr m) := by
  constructor
  · intro msg
    exact ⟨rfl, rfl⟩
  · intro cls m sc op ctx
    rfl

/-! ## C5 -/

/-- C5 counterexample: with the mandatory secret absent, `buildConfig` fails
with a *plain* `Error` (the base `Error` class), not a ConfigurationError —
refuting "fails by raising a fault of the ConfigurationError class". -/
theorem c5_counterexample :
    buildConfig ⟨none, none, none⟩ = .error (.plain apiKeyErrorMessage) ∧
    JSError.isAppError (.plain apiKeyErrorMessage) = false ∧
    JSError.isConfigurationError (.plain apiKeyErrorMessage) = false :=
  ⟨rfl, rfl, rfl⟩

/-- C5 amended: whenever the mandatory API-key secret is absent or blank
(empty after trimming), building the configuration fails by raising a plain
base-class `Error` with the fixed message — an error that is *not* of the
ConfigurationError class (nor any AppError), so the error responder treats
it as unrecognized (500 with the generic message). -/
theorem c5_amended (env : ProcessEnv)
    (h : blankOpt env.GEMINI_API_KEY = true) :
    buildConfig env = .error (.plain apiKeyErrorMessage) ∧
    JSError.isAppError (.plain apiKeyErrorMessage) = false ∧
    JSError.isConfigurationError (.plain apiKeyErrorMessage) = false := by
  refine ⟨?_, rfl, rfl⟩
  unfold buildConfig getApiKey
  cases hk : env.GEMINI_API_KEY with
  | none => rfl
  | some k =>
      rw [hk] at h
      simp only [blankOpt, Bool.or_eq_true, decide_eq_true_eq] at h
      rcases h with h | h <;> simp [h]

/-- C5 amended, witnessed at an environment whose API key is whitespace. -/
theorem c5_amended_witness :
    buildConfig ⟨some "  ", none, none⟩ = .error (.plain apiKeyErrorMessage) ∧
    JSError.isAppError (.plain apiKeyErrorMessage) = false ∧
    JSError.isConfigurationError (.plain apiKeyErrorMessage) = false :=
  c5_amended ⟨some "  ", none, none⟩ (by decide)

/-! ## C6 -/

/-- C6: for input that is absent or empty after trimming, `parseShifts`
raises an AIServiceError (not a ValidationError) whose context carries the
input's length (0 for an absent input), and the external model is never
invoked. -/
theorem c6_empty_text_aiservice (modelName : String)
    (parseJson : String → Except String JSValue)
    (modelReply : String → ModelOutcome) (currentYear : Nat)
    (text : Option String)
    (h : text = none ∨ ∃ s, text = some s ∧ jsTrim s = "") :
    parseShifts modelName parseJson modelReply currentYear text =
      (.error (AIServiceError "Cannot parse empty text"
        (some (vobj [("inputLength",
          vnum (match text with | none => 0 | some s => (s.length : Int)))]))),
       false) ∧
    JSError.isValidationError
      (AIServiceError "Cannot parse empty text"
        (some (vobj [("inputLength",
          vnum (match text with | none => 0 | some s => (s.length : Int)))]))) =
      false := by
  refine ⟨?_, rfl⟩
  unfold parseShifts
  rcases h with rfl | ⟨s, rfl, hs⟩
  · rfl
  · simp [hs]

/-- C6 witnessed at the whitespace input `" \t "` (pre-trim length 3): the
AIServiceError fires with `inputLength = 3` and the model-invoked flag is
false. -/
theorem c6_witness :
    parseShifts "gemini-1.5-flash-001" (fun _ => .error "unused")
        (fun _ => ModelOutcome.failure "unreachable") 2026 (some " \t ") =
      (.error (AIServiceError "Cannot parse empty text"
        (some (vobj [("inputLength", vnum 3)]))), false) ∧
    JSError.isValidationError
      (AIServiceError "Cannot parse empty text"
        (some (vobj [("inputLength", vnum 3)]))) = false :=
  c6_empty_text_aiservice "gemini-1.5-flash-001" (fun _ => .error "unused")
    (fun _ => ModelOutcome.failure "unreachable") 2026 (some " \t ")
    (Or.inr ⟨" \t ", rfl, by decide⟩)

/-! ## C7 -/

/-- C7: for an OPTIONS request the handler responds 200 with an empty body,
the CORS middleware signals termination (`true`), and neither the request
validator nor the parsing orchestrator nor the external model is invoked. -/
theorem c7_options_preflight (production : Bool) (cfg : AppConfig)
    (parseJson : String → Except String JSValue)
    (modelReply : String → ModelOutcome) (currentYear : Nat)
    (req : JSRequest) (res : JSResponse)
    (h : req.method = some "OPTIONS") :
    (handler production cfg parseJson modelReply currentYear req res).res.status = 200 ∧
    (handler production cfg parseJson modelReply currentYear req res).res.body = some "" ∧
    (handler production cfg parseJson modelReply currentYear req res).validatorInvoked = false ∧
    (handler production cfg parseJson modelReply currentYear req res).parserInvoked = false ∧
    (handler production cfg parseJson modelReply currentYear req res).modelInvoked = false ∧
    (corsMiddleware req res cfg.ALLOWED_ORIGINS).2 = true := by
  unfold handler corsMiddleware
  simp [h]

/-- C7 witnessed at a concrete OPTIONS request. -/
theorem c7_witness :
    (handler false ⟨"key", ["http://localhost:5173"], "gemini-1.5-flash-001"⟩
        (fun _ => .error "unused") (fun _ => ModelOutcome.failure "unused") 2026
        ⟨some "OPTIONS", some "http://localhost:5173", none, vundef⟩
        ⟨0, [], none⟩).res.status = 200 ∧
    (handler false ⟨"key", ["http://localhost:5173"], "gemini-1.5-flash-001"⟩
        (fun _ => .error "unused") (fun _ => ModelOutcome.failure "unused") 2026
        ⟨some "OPTIONS", some "http://localhost:5173", none, vundef⟩
        ⟨0, [], none⟩).res.body = some "" ∧
    (handler false ⟨"key", ["http://localhost:5173"], "gemini-1.5-flash-001"⟩
        (fun _ => .error "unused") (fun _ => ModelOutcome.failure "unused") 2026
        ⟨some "OPTIONS", some "http://localhost:5173", none, vundef⟩
        ⟨0, [], none⟩).validatorInvoked = false ∧
    (handler false ⟨"key", ["http://localhost:5173"], "gemini-1.5-flash-001"⟩
        (fun _ => .error "unused") (fun _ => ModelOutcome.failure "unused") 2026
        ⟨some "OPTIONS", some "http://localhost:5173", none, vundef⟩
        ⟨0, [], none⟩).parserInvoked = false ∧
    (handler false ⟨"key", ["http://localhost:5173"], "gemini-1.5-flash-001"⟩
        (fun _ => .error "unused") (fun _ => ModelOutcome.failure "unused") 2026
        ⟨some "OPTIONS", some "http://localhost:5173", none, vundef⟩
        ⟨0, [], none⟩).modelInvoked = false ∧
    (corsMiddleware ⟨some "OPTIONS", some "http://localhost:5173", none, vundef⟩
        ⟨0, [], none⟩ ["http://localhost:5173"]).2 = true :=
  c7_options_preflight false ⟨"key", ["http://localhost:5173"], "gemini-1.5-flash-001"⟩
    (fun _ => .error "unused") (fun _ => ModelOutcome.failure "unused") 2026
    ⟨some "OPTIONS", some "http://localhost:5173", none, vundef⟩ ⟨0, [], none⟩ rfl

/-! ## C8 -/

/-- C8 counterexample: on the body `\x7b "text": 42 \x7d` both validators raise a
ValidationError with the same message, but the two errors are *not* the same
error value: `validateRequiredFields` attaches context
`\x7b field, providedType, expectedType \x7d` while `validateTextField` attaches
only `\x7b providedType \x7d` — so the lightweight entry point does not behave
identically to checks 3–5 of the full validator. -/
theorem c8_counterexample :
    validateRequiredFields (vobj [("text", vnum 42)]) =
      .error (ValidationError "Field 'text' must be a string"
        (some (vobj [("field", vstr "text"), ("providedType", vstr "number"),
                     ("expectedType", vstr "string")]))) ∧
    validateTextField ⟨some "POST", none, none, vobj [("text", vnum 42)]⟩ =
      .error (ValidationError "Field 'text' must be a string"
        (some (vobj [("providedType", vstr "number")]))) ∧
    (ValidationError "Field 'text' must be a string"
        (some (vobj [("field", vstr "text"), ("providedType", vstr "number"),
                     ("expectedType", vstr "string")]))) ≠
      (ValidationError "Field 'text' must be a string"
        (some (vobj [("providedType", vstr "number")]))) :=
  ⟨rfl, rfl, by simp [ValidationError]⟩

/-- C8 amended: on object bodies, `validateTextField` raises a
ValidationError under exactly the same conditions as checks 3–5 of the full
validator, with the same message and error class, and on success returns the
same `text` value — but the diagnostic contexts differ (the lightweight
entry point omits context on the "required" and "cannot be empty" errors and
carries only `providedType` on the type error). -/
theorem c8_amended (fields : List (String × JSValue)) :
    (validateRequiredFields (vobj fields) = .ok () →
      validateTextField ⟨some "POST", none, none, vobj fields⟩ =
        .ok ((vobj fields).getField "text")) ∧
    (∀ e, validateRequiredFields (vobj fields) = .error e →
      ∃ e2, validateTextField ⟨some "POST", none, none, vobj fields⟩ = .error e2 ∧
        e2.message = e.message ∧ e2.isValidationError = true ∧
        e.isValidationError = true) := by
  cases hx : (vobj fields).getField "text" with
  | vstr s =>
      by_cases hse : s = ""
      · subst hse
        have hA : validateRequiredFields (vobj fields) =
            .error (ValidationError "Field 'text' is required"
              (some (vobj [("providedFields", varr (((vobj fields).objKeys).map vstr)),
                           ("missingField", vstr "text")]))) := by
          simp [validateRequiredFields, hx, truthy]
        have hB : validateTextField ⟨some "POST", none, none, vobj fields⟩ =
            .error (ValidationError "Field 'text' is required" none) := by
          simp [validateTextField, hx, truthy]
        refine ⟨fun h => ?_, fun e he => ?_⟩
        · rw [hA] at h; exact Except.noConfusion h
        · rw [hA] at he
          injection he with he
          subst he
          exact ⟨_, hB, rfl, rfl, rfl⟩
      · by_cases htr : jsTrim s = ""
        · have hA : validateRequiredFields (vobj fields) =
              .error (ValidationError "Field 'text' cannot be empty"
                (some (vobj [("field", vstr "text"), ("length", vnum (s.length : Int))]))) := by
            simp [validateRequiredFields, hx, truthy, typeofJS, hse, htr]
          have hB : validateTextField ⟨some "POST", none, none, vobj fields⟩ =
              .error (ValidationError "Field 'text' cannot be empty" none) := by
            simp [validateTextField, hx, truthy, typeofJS, hse, htr]
          refine ⟨fun h => ?_, fun e he => ?_⟩
          · rw [hA] at h; exact Except.noConfusion h
          · rw [hA] at he
            injection he with he
            subst he
            exact ⟨_, hB, rfl, rfl, rfl⟩
        · have hA : validateRequiredFields (vobj fields) = .ok () := by
            simp [validateRequiredFields, hx, truthy, typeofJS, hse, htr]
          refine ⟨fun _ => ?_, fun e he => ?_⟩
          · simp [validateTextField, hx, truthy, typeofJS, hse, htr]
          · rw [hA] at he
            exact Except.noConfusion he
  | vnum n =>
      by_cases hn : n = 0
      · have hA : validateRequiredFields (vobj fields) =
            .error (ValidationError "Field 'text' is required"
              (some (vobj [("providedFields", varr (((vobj fields).objKeys).map vstr)),
                           ("missingField", vstr "text")]))) := by
          simp [validateRequiredFields, hx, truthy, hn]
        have hB : validateTextField ⟨some "POST", none, none, vobj fields⟩ =
            .error (ValidationError "Field 'text' is required" none) := by
          simp [validateTextField, hx, truthy, hn]
        refine ⟨fun h => ?_, fun e he => ?_⟩
        · rw [hA] at h; exact Except.noConfusion h
        · rw [hA] at he
          injection he with he
          subst he
          exact ⟨_, hB, rfl, rfl, rfl⟩
      · have hA : validateRequiredFields (vobj fields) =
            .error (ValidationError "Field 'text' must be a string"
              (some (vobj [("field", vstr "text"), ("providedType", vstr "number"),
                           ("expectedType", vstr "string")]))) := by
          simp [validateRequiredFields, hx, truthy, typeofJS, hn]
        have hB : validateTextField ⟨some "POST", none, none, vobj fields⟩ =
            .error (ValidationError "Field 'text' must be a string"
              (some (vobj [("providedType", vstr "number")]))) := by
          simp [validateTextField, hx, truthy, typeofJS, hn]
        refine ⟨fun h => ?_, fun e he => ?_⟩
        · rw [hA] at h; exact Except.noConfusion h
        · rw [hA] at he
          injection he with he
          subst he
          exact ⟨_, hB, rfl, rfl, rfl⟩
  | vbool b =>
      cases b with
      | false =>
          have hA : validateRequiredFields (vobj fields) =
              .error (ValidationError "Field 'text' is required"
                (some (vobj [("providedFields", varr (((vobj fields).objKeys).map vstr)),
                             ("missingField", vstr "text")]))) := by
            simp [validateRequiredFields, hx, truthy]
          have hB : validateTextField ⟨some "POST", none, none, vobj fields⟩ =
              .error (ValidationError "Field 'text' is required" none) := by
            simp [validateTextField, hx, truthy]
          refine ⟨fun h => ?_, fun e he => ?_⟩
          · rw [hA] at h; exact Except.noConfusion h
          · rw [hA] at he
            injection he with he
            subst he
            exact ⟨_, hB, rfl, rfl, rfl⟩
      | true =>
          have hA : validateRequiredFields (vobj fields) =
              .error (ValidationError "Field 'text' must be a string"
                (some (vobj [("field", vstr "text"), ("providedType", vstr "boolean"),
                             ("expectedType", vstr "string")]))) := by
            simp [validateRequiredFields, hx, truthy, typeofJS]
          have hB : validateTextField ⟨some "POST", none, none, vobj fields⟩ =
              .error (ValidationError "Field 'text' must be a string"
                (some (vobj [("providedType", vstr "boolean")]))) := by
            simp [validateTextField, hx, truthy, typeofJS]
          refine ⟨fun h => ?_, fun e he => ?_⟩
          · rw [hA] at h; exact Except.noConfusion h
          · rw [hA] at he
            injection he with he
            subst he
            exact ⟨_, hB, rfl, rfl, rfl⟩
  | vnull =>
      have hA : validateRequiredFields (vobj fields) =
          .error (ValidationError "Field 'text' is required"
            (some (vobj [("providedFields", varr (((vobj fields).objKeys).map vstr)),
                         ("missingField", vstr "text")]))) := by
        simp [validateRequiredFields, hx, truthy]
      have hB : validateTextField ⟨some "POST", none, none, vobj fields⟩ =
          .error (ValidationError "Field 'text' is required" none) := by
        simp [validateTextField, hx, truthy]
      refine ⟨fun h => ?_, fun e he => ?_⟩
      · rw [hA] at h; exact Except.noConfusion h
      · rw [hA] at he
        injection he with he
        subst he
        exact ⟨_, hB, rfl, rfl, rfl⟩
  | vundef =>
      have hA : validateRequiredFields (vobj fields) =
          .error (ValidationError "Field 'text' is required"
            (some (vobj [("providedFields", varr (((vobj fields).objKeys).map vstr)),
                         ("missingField", vstr "text")]))) := by
        simp [validateRequiredFields, hx, truthy]
      have hB : validateTextField ⟨some "POST", none, none, vobj fields⟩ =
          .error (ValidationError "Field 'text' is required" none) := by
        simp [validateTextField, hx, truthy]
      refine ⟨fun h => ?_, fun e he => ?_⟩
      · rw [hA] at h; exact Except.noConfusion h
      · rw [hA] at he
        injection he with he
        subst he
        exact ⟨_, hB, rfl, rfl, rfl⟩
  | varr elems =>
      have hA : validateRequiredFields (vobj fields) =
          .error (ValidationError "Field 'text' must be a string"
            (some (vobj [("field", vstr "text"), ("providedType", vstr "object"),
                         ("expectedType", vstr "string")]))) := by
        simp [validateRequiredFields, hx, truthy, typeofJS]
      have hB : validateTextField ⟨some "POST", none, none, vobj fields⟩ =
          .error (ValidationError "Field 'text' must be a string"
            (some (vobj [("providedType", vstr "object")]))) := by
        simp [validateTextField, hx, truthy, typeofJS]
      refine ⟨fun h => ?_, fun e he => ?_⟩
      · rw [hA] at h; exact Except.noConfusion h
      · rw [hA] at he
        injection he with he
        subst he
        exact ⟨_, hB, rfl, rfl, rfl⟩
  | vobj fs =>
      have hA : validateRequiredFields (vobj fields) =
          .error (ValidationError "Field 'text' must be a string"
            (some (vobj [("field", vstr "text"), ("providedType", vstr "object"),
                         ("expectedType", vstr "string")]))) := by
        simp [validateRequiredFields, hx, truthy, typeofJS]
      have hB : validateTextField ⟨some "POST", none, none, vobj fields⟩ =
          .error (ValidationError "Field 'text' must be a string"
            (some (vobj [("providedType", vstr "object")]))) := by
        simp [validateTextField, hx, truthy, typeofJS]
      refine ⟨fun h => ?_, fun e he => ?_⟩
      · rw [hA] at h; exact Except.noConfusion h
      · rw [hA] at he
        injection he with he
        subst he
        exact ⟨_, hB, rfl, rfl, rfl⟩

/-- C8 amended, witnessed at the body `\x7b "text": "hi" \x7d`: both validators
succeed and the lightweight entry point returns the same `text` value. -/
theorem c8_amended_witness :
    validateTextField ⟨some "POST", none, none, vobj [("text", vstr "hi")]⟩ =
      .ok ((vobj [("text", vstr "hi")]).getField "text") :=
  (c8_amended [("text", vstr "hi")]).1 rfl

/-! ## Handler success characterization (for C9 and C10) -/

/-- Every error raised by `validateMethod` is the 405 MethodNotAllowedError. -/
theorem validateMethod_error_status (req : JSRequest) (e : JSError)
    (h : validateMethod req = .error e) : errStatus e = 405 := by
  unfold validateMethod at h
  split at h
  · injection h with h
    subst h
    rfl
  · exact Except.noConfusion h

/-- Every error raised by `validateBody` is a 400 ValidationError. -/
theorem validateBody_error_status (req : JSRequest) (e : JSError)
    (h : validateBody req = .error e) : errStatus e = 400 := by
  unfold validateBody at h
  split at h
  · injection h with h
    subst h
    rfl
  · split at h
    · injection h with h
      subst h
      rfl
    · exact Except.noConfusion h

/-- Every error raised by `validateRequiredFields` is a 400 ValidationError. -/
theorem validateRequiredFields_error_status (body : JSValue) (e : JSError)
    (h : validateRequiredFields body = .error e) : errStatus e = 400 := by
  unfold validateRequiredFields at h
  dsimp only at h
  split at h
  · injection h with h
    subst h
    rfl
  · split at h
    · injection h with h
      subst h
      rfl
    · split at h
      · split at h
        · injection h with h
          subst h
          rfl
        · exact Except.noConfusion h
      · exact Except.noConfusion h

/-- Every error raised by `validateRequest` carries status 400 or 405, and
a success returns the request's own body. -/
theorem validateRequest_cases (req : JSRequest) :
    (∀ e, validateRequest req = .error e → errStatus e = 400 ∨ errStatus e = 405) ∧
    (∀ b, validateRequest req = .ok b → b = req.body) := by
  constructor <;> intro x h <;> unfold validateRequest at h
  · cases h1 : validateMethod req with
    | error e1 =>
        rw [h1] at h
        have h' : Except.error e1 = Except.error x := h
        injection h' with h'
        subst h'
        exact Or.inr (validateMethod_error_status req e1 h1)
    | ok u =>
        cases u
        rw [h1] at h
        cases h2 : validateBody req with
        | error e2 =>
            rw [h2] at h
            have h' : Except.error e2 = Except.error x := h
            injection h' with h'
            subst h'
            exact Or.inl (validateBody_error_status req e2 h2)
        | ok u2 =>
            cases u2
            rw [h2] at h
            cases h3 : validateRequiredFields req.body with
            | error e3 =>
                rw [h3] at h
                have h' : Except.error e3 = Except.error x := h
                injection h' with h'
                subst h'
                exact Or.inl (validateRequiredFields_error_status req.body e3 h3)
            | ok u3 =>
                cases u3
                rw [h3] at h
                have h' : (if !isParseRequest req.body then
                    (.error (ValidationError "Request body does not match expected structure"
                      (some (vobj [("body", req.body)]))) : Except JSError JSValue)
                  else pure req.body) = Except.error x := h
                split at h'
                · injection h' with h'
                  subst h'
                  exact Or.inl rfl
                · exact Except.noConfusion h'
  · cases h1 : validateMethod req with
    | error e1 =>
        rw [h1] at h
        exact Except.noConfusion h
    | ok u =>
        cases u
        rw [h1] at h
        cases h2 : validateBody req with
        | error e2 =>
            rw [h2] at h
            exact Except.noConfusion h
        | ok u2 =>
            cases u2
            rw [h2] at h
            cases h3 : validateRequiredFields req.body with
            | error e3 =>
                rw [h3] at h
                exact Except.noConfusion h
            | ok u3 =>
                cases u3
                rw [h3] at h
                have h' : (if !isParseRequest req.body then
                    (.error (ValidationError "Request body does not match expected structure"
                      (some (vobj [("body", req.body)]))) : Except JSError JSValue)
                  else pure req.body) = Except.ok x := h
                split at h'
                · exact Except.noConfusion h'
                · injection h' with h'
                  exact h'.symm

/-- Every error from the `AIParserService` constructor is a 500
ConfigurationError. -/
theorem createAIParserService_error_status (k m : String) (e : JSError)
    (h : createAIParserService k m = .error e) : errStatus e = 500 := by
  unfold createAIParserService at h
  split at h
  · injection h with h
    subst h
    rfl
  · split at h
    · injection h with h
      subst h
      rfl
    · exact Except.noConfusion h

/-- Every error from a field check is a 500 AIServiceError. -/
theorem validateShiftField_error_status (i : Nat) (shift : JSValue) (f : String)
    (e : JSError) (h : validateShiftField i shift f = .error e) :
    errStatus e = 500 := by
  unfold validateShiftField at h
  dsimp only at h
  split at h
  · injection h with h
    subst h
    rfl
  · exact Except.noConfusion h

/-- Every error from the field loop is a 500 AIServiceError. -/
theorem validateShiftFieldsLoop_error_status (i : Nat) (shift : JSValue)
    (fs : List String) (e : JSError)
    (h : validateShiftFieldsLoop i shift fs = .error e) : errStatus e = 500 := by
  induction fs with
  | nil => exact Except.noConfusion h
  | cons f rest ih =>
      unfold validateShiftFieldsLoop at h
      cases hf : validateShiftField i shift f with
      | error e1 =>
          rw [hf] at h
          have h' : Except.error e1 = Except.error e := h
          injection h' with h'
          subst h'
          exact validateShiftField_error_status i shift f e1 hf
      | ok u =>
          cases u
          rw [hf] at h
          exact ih h

/-- Every error from the per-element check is a 500 AIServiceError. -/
theorem validateShiftElem_error_status (i : Nat) (shift : JSValue) (e : JSError)
    (h : validateShiftElem i shift = .error e) : errStatus e = 500 := by
  unfold validateShiftElem at h
  split at h
  · injection h with h
    subst h
    rfl
  · exact validateShiftFieldsLoop_error_status i shift requiredShiftFields e h

/-- Every error from the element loop is a 500 AIServiceError. -/
theorem validateShiftsFrom_error_status (shifts : List JSValue) :
    ∀ (k : Nat) (e : JSError),
      validateShiftsFrom k shifts = .error e → errStatus e = 500 := by
  induction shifts with
  | nil => intro k e h; exact Except.noConfusion h
  | cons s rest ih =>
      intro k e h
      unfold validateShiftsFrom at h
      cases hs : validateShiftElem k s with
      | error e1 =>
          rw [hs] at h
          have h' : Except.error e1 = Except.error e := h
          injection h' with h'
          subst h'
          exact validateShiftElem_error_status k s e1 hs
      | ok u =>
          cases u
          rw [hs] at h
          exact ih (k + 1) e h

/-- Every error from `parseShifts` is a 500 AIServiceError. -/
theorem parseShifts_error_status (modelName : String)
    (pj : String → Except String JSValue) (mr : String → ModelOutcome)
    (year : Nat) (text : Option String) (e : JSError) (b : Bool)
    (h : parseShifts modelName pj mr year text = (.error e, b)) :
    errStatus e = 500 := by
  unfold parseShifts at h
  split at h
  · have h' := congrArg Prod.fst h
    injection h' with h'
    subst h'
    rfl
  · dsimp only at h
    split at h
    · have h' := congrArg Prod.fst h
      injection h' with h'
      subst h'
      rfl
    · split at h
      · have h' := congrArg Prod.fst h
        injection h' with h'
        subst h'
        rfl
      · split at h
        · have h' := congrArg Prod.fst h
          injection h' with h'
          subst h'
          rfl
        · split at h
          · have h' := congrArg Prod.fst h
            injection h' with h'
            subst h'
            rfl
          · split at h
            · split at h
              · rename_i e2 heq
                have h' := congrArg Prod.fst h
                injection h' with h'
                subst h'
                exact validateShiftsFrom_error_status _ 0 e2 heq
              · exact Except.noConfusion (congrArg Prod.fst h)
            · exact Except.noConfusion (congrArg Prod.fst h)

/-- A successful `parseShifts` returns an array that passed the local shift
validation, and the external model was invoked. -/
theorem parseShifts_ok_shape (modelName : String)
    (pj : String → Except String JSValue) (mr : String → ModelOutcome)
    (year : Nat) (text : Option String) (v : JSValue) (b : Bool)
    (h : parseShifts modelName pj mr year text = (.ok v, b)) :
    (∃ elems, v = varr elems ∧ validateShifts elems = .ok ()) ∧ b = true := by
  unfold parseShifts at h
  split at h
  · exact Except.noConfusion (congrArg Prod.fst h)
  · dsimp only at h
    cases hmo : mr (buildPrompt year (text.getD "")) with
    | failure msg =>
        rw [hmo] at h
        exact Except.noConfusion (congrArg Prod.fst h)
    | success responseText =>
        rw [hmo] at h
        dsimp only at h
        split at h
        · exact Except.noConfusion (congrArg Prod.fst h)
        · cases hpj : pj responseText with
          | error pe =>
              rw [hpj] at h
              exact Except.noConfusion (congrArg Prod.fst h)
          | ok parsed =>
              rw [hpj] at h
              dsimp only at h
              cases parsed with
              | varr elems =>
                  rw [if_neg (by simp [isArray])] at h
                  dsimp only at h
                  cases hval : validateShifts elems with
                  | error e2 =>
                      rw [hval] at h
                      exact Except.noConfusion (congrArg Prod.fst h)
                  | ok u =>
                      cases u
                      rw [hval] at h
                      have h1 := congrArg Prod.fst h
                      injection h1 with h1
                      have h2 := congrArg Prod.snd h
                      exact ⟨⟨elems, h1.symm, hval⟩, h2.symm⟩
              | vstr s =>
                  rw [if_pos (by simp [isArray])] at h
                  exact Except.noConfusion (congrArg Prod.fst h)
              | vnum n =>
                  rw [if_pos (by simp [isArray])] at h
                  exact Except.noConfusion (congrArg Prod.fst h)
              | vbool bb =>
                  rw [if_pos (by simp [isArray])] at h
                  exact Except.noConfusion (congrArg Prod.fst h)
              | vnull =>
                  rw [if_pos (by simp [isArray])] at h
                  exact Except.noConfusion (congrArg Prod.fst h)
              | vundef =>
                  rw [if_pos (by simp [isArray])] at h
                  exact Except.noConfusion (congrArg Prod.fst h)
              | vobj fs =>
                  rw [if_pos (by simp [isArray])] at h
                  exact Except.noConfusion (congrArg Prod.fst h)

/-- When the external model's reply is the fixed text `respText`, the value
a successful `parseShifts` returns is exactly the JSON value parsed from
`respText`. -/
theorem parseShifts_ok_value (modelName : String)
    (pj : String → Except String JSValue) (mr : String → ModelOutcome)
    (year : Nat) (text : Option String) (v : JSValue) (b : Bool)
    (respText : String)
    (hr : ∀ p, mr p = ModelOutcome.success respText)
    (h : parseShifts modelName pj mr year text = (.ok v, b)) :
    pj respText = .ok v := by
  unfold parseShifts at h
  split at h
  · exact Except.noConfusion (congrArg Prod.fst h)
  · dsimp only at h
    rw [hr] at h
    dsimp only at h
    split at h
    · exact Except.noConfusion (congrArg Prod.fst h)
    · cases hpj : pj respText with
      | error pe =>
          rw [hpj] at h
          exact Except.noConfusion (congrArg Prod.fst h)
      | ok parsed =>
          rw [hpj] at h
          dsimp only at h
          cases parsed with
          | varr elems =>
              rw [if_neg (by simp [isArray])] at h
              dsimp only at h
              cases hval : validateShifts elems with
              | error e2 =>
                  rw [hval] at h
                  exact Except.noConfusion (congrArg Prod.fst h)
              | ok u =>
                  cases u
                  rw [hval] at h
                  have h1 := congrArg Prod.fst h
                  injection h1 with h1
                  rw [h1]
          | vstr s =>
              rw [if_pos (by simp [isArray])] at h
              exact Except.noConfusion (congrArg Prod.fst h)
          | vnum n =>
              rw [if_pos (by simp [isArray])] at h
              exact Except.noConfusion (congrArg Prod.fst h)
          | vbool bb =>
              rw [if_pos (by simp [isArray])] at h
              exact Except.noConfusion (congrArg Prod.fst h)
          | vnull =>
              rw [if_pos (by simp [isArray])] at h
              exact Except.noConfusion (congrArg Prod.fst h)
          | vundef =>
              rw [if_pos (by simp [isArray])] at h
              exact Except.noConfusion (congrArg Prod.fst h)
          | vobj fs =>
              rw [if_pos (by simp [isArray])] at h
              exact Except.noConfusion (congrArg Prod.fst h)

/-- A non-OPTIONS request that ends with status 200 must have gone through
the whole success pipeline: the validator succeeded (returning the request's
own body), `parseShifts` returned a validated array with the model invoked,
and the response body is the serialization of that array. -/
theorem handler_post_200 (production : Bool) (cfg : AppConfig)
    (pj : String → Except String JSValue) (mr : String → ModelOutcome)
    (year : Nat) (req : JSRequest) (res : JSResponse)
    (hm : req.method ≠ some "OPTIONS")
    (h200 : (handler production cfg pj mr year req res).res.status = 200) :
    ∃ elems,
      validateRequest req = .ok req.body ∧
      parseShifts cfg.AI_MODEL_NAME pj mr year
        (some (jsAsString (req.body.getField "text"))) = (.ok (varr elems), true) ∧
      validateShifts elems = .ok () ∧
      (handler production cfg pj mr year req res).res.body =
        some (jsonStringify (varr elems)) := by
  have hcors : (corsMiddleware req res cfg.ALLOWED_ORIGINS).2 = false := by
    unfold corsMiddleware
    simp [hm]
  unfold handler at h200 ⊢
  rw [if_neg (by simp [hcors])] at h200 ⊢
  dsimp only at h200 ⊢
  cases hv : validateRequest req with
  | error e =>
      rw [hv] at h200
      have h' : errStatus e = 200 := h200
      rcases (validateRequest_cases req).1 e hv with h4 | h4 <;> omega
  | ok body =>
      have hb : body = req.body := (validateRequest_cases req).2 body hv
      subst hb
      rw [hv] at h200
      dsimp only at h200
      cases hsvc : createAIParserService cfg.GEMINI_API_KEY cfg.AI_MODEL_NAME with
      | error e =>
          rw [hsvc] at h200
          have h' : errStatus e = 200 := h200
          have h5 := createAIParserService_error_status _ _ e hsvc
          omega
      | ok u =>
          cases u
          rw [hsvc] at h200
          dsimp only at h200
          rcases hps : parseShifts cfg.AI_MODEL_NAME pj mr year
              (some (jsAsString (req.body.getField "text"))) with ⟨pres, pinv⟩
          rw [hps] at h200
          cases pres with
          | error e =>
              have h5 := parseShifts_error_status _ pj mr year _ e pinv hps
              have h' : errStatus e = 200 := h200
              omega
          | ok v =>
              obtain ⟨⟨elems, rfl, hval⟩, rfl⟩ :=
                parseShifts_ok_shape _ pj mr year _ v pinv hps
              refine ⟨elems, ?_, ?_, hval, ?_⟩
              · first
                | exact hv
                | rfl
              · first
                | exact hps
                | rfl
              · dsimp only
                rw [hps]

/-! ## C9 -/

/-- C9: two handler invocations with the same input text and the same raw
model output text produce byte-identical success bodies, equal to the
serialization of the JSON value parsed from the model response — whatever
the origin headers, the extra body fields, the current year embedded in the
prompt, or the initial response state. -/
theorem c9_idempotent_success (production : Bool) (cfg : AppConfig)
    (pj : String → Except String JSValue)
    (mr1 mr2 : String → ModelOutcome) (year1 year2 : Nat)
    (req1 req2 : JSRequest) (res1 res2 : JSResponse) (t respText : String)
    (hm1 : req1.method = some "POST") (hm2 : req2.method = some "POST")
    (ht1 : req1.body.getField "text" = vstr t)
    (ht2 : req2.body.getField "text" = vstr t)
    (hr1 : ∀ p, mr1 p = ModelOutcome.success respText)
    (hr2 : ∀ p, mr2 p = ModelOutcome.success respText)
    (h1 : (handler production cfg pj mr1 year1 req1 res1).res.status = 200)
    (h2 : (handler production cfg pj mr2 year2 req2 res2).res.status = 200) :
    ∃ v, pj respText = .ok v ∧
      (handler production cfg pj mr1 year1 req1 res1).res.body =
        some (jsonStringify v) ∧
      (handler production cfg pj mr2 year2 req2 res2).res.body =
        some (jsonStringify v) ∧
      (handler production cfg pj mr1 year1 req1 res1).res.body =
        (handler production cfg pj mr2 year2 req2 res2).res.body := by
  obtain ⟨e1, hv1, hps1, hval1, hb1⟩ :=
    handler_post_200 production cfg pj mr1 year1 req1 res1 (by rw [hm1]; simp) h1
  obtain ⟨e2, hv2, hps2, hval2, hb2⟩ :=
    handler_post_200 production cfg pj mr2 year2 req2 res2 (by rw [hm2]; simp) h2
  have hj1 : pj respText = .ok (varr e1) :=
    parseShifts_ok_value _ pj mr1 year1 _ _ _ respText hr1 hps1
  have hj2 : pj respText = .ok (varr e2) :=
    parseShifts_ok_value _ pj mr2 year2 _ _ _ respText hr2 hps2
  have heq : varr e1 = varr e2 := by
    rw [hj1] at hj2
    injection hj2
  refine ⟨varr e1, hj1, hb1, ?_, ?_⟩
  · rw [heq]
    exact hb2
  · rw [hb1, hb2, heq]

/-- C9 witnessed: same text, same raw model output, but different origins,
years and response states still yield the same serialized 200 body. -/
theorem c9_witness :
    ∃ v, samplePj "[raw model json]" = .ok v ∧
      (handler false sampleCfg samplePj sampleMr 2026
          (sampleReq none) emptyRes).res.body = some (jsonStringify v) ∧
      (handler false sampleCfg samplePj sampleMr 2027
          (sampleReq (some "http://localhost:5173")) emptyRes).res.body =
        some (jsonStringify v) ∧
      (handler false sampleCfg samplePj sampleMr 2026
          (sampleReq none) emptyRes).res.body =
        (handler false sampleCfg samplePj sampleMr 2027
          (sampleReq (some "http://localhost:5173")) emptyRes).res.body :=
  c9_idempotent_success false sampleCfg samplePj sampleMr sampleMr 2026 2027
    (sampleReq none) (sampleReq (some "http://localhost:5173")) emptyRes emptyRes
    "I work Monday 9am to 5pm" "[raw model json]"
    rfl rfl rfl rfl (fun _ => rfl) (fun _ => rfl) rfl rfl

/-! ## C10 -/

/-- C10: in every successful 200 response to a POST request, each returned
shift's `date`, `startTime` and `endTime` are non-empty strings; and in
general the local shift validation never accepts a list containing an
element whose required field is the empty string, even though such a field
is present and of string type. -/
theorem c10_success_fields_nonempty (production : Bool) (cfg : AppConfig)
    (pj : String → Except String JSValue) (mr : String → ModelOutcome)
    (year : Nat) (req : JSRequest) (res : JSResponse)
    (hm : req.method = some "POST")
    (h200 : (handler production cfg pj mr year req res).res.status = 200) :
    (∃ elems,
      (handler production cfg pj mr year req res).res.body =
        some (jsonStringify (varr elems)) ∧
      ∀ s ∈ elems, ∀ f ∈ requiredShiftFields,
        ∃ str, s.getField f = vstr str ∧ str ≠ "") ∧
    (∀ shifts : List JSValue, ∀ s ∈ shifts, ∀ f ∈ requiredShiftFields,
      s.getField f = vstr "" → validateShifts shifts ≠ .ok ()) := by
  constructor
  · obtain ⟨elems, hv, hps, hval, hb⟩ :=
      handler_post_200 production cfg pj mr year req res (by rw [hm]; simp) h200
    refine ⟨elems, hb, ?_⟩
    intro s hs f hf
    have helem := (validateShiftsFrom_ok_iff 0 elems).mp hval s hs
    exact ((validateShiftElem_ok_iff 0 s).mp helem).2 f hf
  · intro shifts s hs f hf hfield hok
    have helem := (validateShiftsFrom_ok_iff 0 shifts).mp hok s hs
    obtain ⟨str, hstr, hne⟩ := ((validateShiftElem_ok_iff 0 s).mp helem).2 f hf
    rw [hfield] at hstr
    injection hstr with hstr
    exact hne hstr.symm

/-- C10 witnessed on a concrete successful invocation. -/
theorem c10_witness :
    (∃ elems,
      (handler true sampleCfg samplePj sampleMr 2026
          (sampleReq (some "https://dmaman86.github.io")) emptyRes).res.body =
        some (jsonStringify (varr elems)) ∧
      ∀ s ∈ elems, ∀ f ∈ requiredShiftFields,
        ∃ str, s.getField f = vstr str ∧ str ≠ "") ∧
    (∀ shifts : List JSValue, ∀ s ∈ shifts, ∀ f ∈ requiredShiftFields,
      s.getField f = vstr "" → validateShifts shifts ≠ .ok ()) :=
  c10_success_fields_nonempty true sampleCfg samplePj sampleMr 2026
    (sampleReq (some "https://dmaman86.github.io")) emptyRes rfl rfl
